import Mathlib

/-
Verification of the superblock view constructors of the ext2-rs repository
(src/parse.rs). The four constructors reinterpret a raw memory region as a
typed Superblock record without copying; the only runtime check is a
debug-build assertion that the magic field equals EXT2_MAGIC.

Modelling choices:
- memory is a byte store `Mem := Nat → Nat` (bytes taken modulo 256 at
  read/write time);
- a Rust reference `&Superblock` / `&mut Superblock` is a base address into
  that store (`SuperblockRef`);
- the process-terminating debug assertion is the `Abortable.abort` outcome,
  distinct from any recoverable error value; a normal return is
  `Abortable.ok` carrying the reference and the (unchanged) memory.
-/

/-- Byte memory: each address holds a byte (reduced modulo 256 on access). -/
abbrev Mem : Type := Nat → Nat

/-- A Rust byte slice over the memory: a base address and a length. -/
structure Slice where
  base : Nat
  len : Nat
deriving DecidableEq, Repr

/-- Read a 16-bit little-endian value starting at address `a`. -/
def readLE16 (mem : Mem) (a : Nat) : Nat :=
  mem a % 256 + 256 * (mem (a + 1) % 256)

/-- Read a 32-bit little-endian value starting at address `a`. -/
def readLE32 (mem : Mem) (a : Nat) : Nat :=
  mem a % 256 + 256 * (mem (a + 1) % 256)
    + 65536 * (mem (a + 2) % 256) + 16777216 * (mem (a + 3) % 256)

/-- Write a 32-bit little-endian value starting at address `a`, leaving every
other byte of memory unchanged. -/
def writeLE32 (mem : Mem) (a v : Nat) : Mem := fun x =>
  if x = a then v % 256
  else if x = a + 1 then v / 256 % 256
  else if x = a + 2 then v / 65536 % 256
  else if x = a + 3 then v / 16777216 % 256
  else mem x

/-- Modelled from the spec: the schema crate defining `Superblock` and
`EXT2_MAGIC` is not under src/. The spec fixes the identity constant to the
well-known ext2 magic value (an 0xEF53-style value from the external
schema). -/
def EXT2_MAGIC : Nat := 0xEF53

/-- Modelled from the spec: the byte offset of the 16-bit little-endian
identity (magic) field inside the on-disk Superblock record, per the
well-known ext2 schema the spec defers to. -/
def magicOffset : Nat := 56

/-- Modelled from the spec: the byte offset of a representative non-identity
field (a 32-bit little-endian block count) inside the on-disk Superblock
record, per the well-known ext2 schema the spec defers to. -/
def blocksCountOffset : Nat := 4

/-- A typed reference to a Superblock record: in the embedding, the address
of the record's first byte. Both `&Superblock` and `&mut Superblock` are
represented this way; mutation threads the memory explicitly. -/
structure SuperblockRef where
  base : Nat
deriving DecidableEq, Repr

/-- Reading the `magic` field through a reference (`ret.magic` in the
source): a 16-bit little-endian load at the field's offset. -/
def SuperblockRef.magic (r : SuperblockRef) (mem : Mem) : Nat :=
  readLE16 mem (r.base + magicOffset)

/-- Modelled from the spec: reading a representative non-identity field
(block count) through a reference. -/
def SuperblockRef.blocks_count (r : SuperblockRef) (mem : Mem) : Nat :=
  readLE32 mem (r.base + blocksCountOffset)

/-- Modelled from the spec: writing a non-identity field (block count)
through a mutable reference stores the value at that field's bytes and
touches no other byte. -/
def SuperblockRef.set_blocks_count (r : SuperblockRef) (v : Nat) (mem : Mem) : Mem :=
  writeLE32 mem (r.base + blocksCountOffset) v

/-- Outcome of running a constructor: a normal return, or the
process-terminating abort raised by a failed debug assertion. There is no
error-carrying variant: this is not a recoverable `Result`/`Option` value. -/
inductive Abortable (α : Type) where
  | ok (a : α)
  | abort
deriving DecidableEq, Repr

/-- Semantics of `debug_assert_eq!(a, b)` as a continuation test: `true`
means execution continues (release build, or the values are equal), `false`
means the process aborts. -/
def debug_assert_eq (debug : Bool) (a b : Nat) : Bool :=
  !debug || (a == b)

/-- Embedding of `Superblock::from_addr`: reinterpret the address as a
`Superblock` reference, then run the debug-only identity check by reading
the magic field through that reference; return the reference with the
memory unchanged. -/
def Superblock.from_addr (debug : Bool) (addr : Nat) (mem : Mem) :
    Abortable (SuperblockRef × Mem) :=
  let ret : SuperblockRef := { base := addr }
  if debug_assert_eq debug (ret.magic mem) EXT2_MAGIC
  then Abortable.ok (ret, mem)
  else Abortable.abort

/-- Embedding of `Superblock::from_addr_mut`: same computation as
`from_addr`; the returned reference is the mutable view. -/
def Superblock.from_addr_mut (debug : Bool) (addr : Nat) (mem : Mem) :
    Abortable (SuperblockRef × Mem) :=
  let ret : SuperblockRef := { base := addr }
  if debug_assert_eq debug (ret.magic mem) EXT2_MAGIC
  then Abortable.ok (ret, mem)
  else Abortable.abort

/-- Embedding of `<[u8]>::as_ptr`: the slice's start address. -/
def Slice.as_ptr (b : Slice) : Nat := b.base

/-- Embedding of `<[u8]>::as_mut_ptr`: the slice's start address. -/
def Slice.as_mut_ptr (b : Slice) : Nat := b.base

/-- Embedding of `Superblock::from_bytes`: take the slice's start address
and defer to `from_addr`. The slice's length is never consulted. -/
def Superblock.from_bytes (debug : Bool) (b : Slice) (mem : Mem) :
    Abortable (SuperblockRef × Mem) :=
  Superblock.from_addr debug b.as_ptr mem

/-- Embedding of `Superblock::from_bytes_mut`: take the slice's start
address and defer to `from_addr_mut`. The slice's length is never
consulted. -/
def Superblock.from_bytes_mut (debug : Bool) (b : Slice) (mem : Mem) :
    Abortable (SuperblockRef × Mem) :=
  Superblock.from_addr_mut debug b.as_mut_ptr mem

/-- A concrete known-good fixture buffer: the magic bytes 0x53, 0xEF sit at
the identity field's offset (little-endian 0xEF53); all other bytes are 0. -/
def fixtureMem : Mem := fun a =>
  if a = 56 then 0x53 else if a = 57 then 0xEF else 0

/-- A concrete corrupted buffer: every byte is 0, so the identity field
reads 0, which differs from EXT2_MAGIC. -/
def corruptMem : Mem := fun _ => 0

/-- C1: for every byte buffer whose identity field equals EXT2_MAGIC,
`Superblock::from_bytes` succeeds without aborting (in any build
configuration) and the magic field read through the returned view is
exactly EXT2_MAGIC. -/
theorem superblock_from_bytes_works (debug : Bool) (b : Slice) (mem : Mem)
    (h : SuperblockRef.magic ⟨b.base⟩ mem = EXT2_MAGIC) :
    Superblock.from_bytes debug b mem = Abortable.ok (⟨b.base⟩, mem) ∧
    SuperblockRef.magic ⟨b.base⟩ mem = EXT2_MAGIC := by
  refine ⟨?_, h⟩
  simp [Superblock.from_bytes, Superblock.from_addr, Slice.as_ptr, debug_assert_eq, h]

/-- Witness for C1: the concrete known-good fixture buffer, viewed in a
debug build, yields a view whose magic field is EXT2_MAGIC. -/
theorem superblock_from_bytes_works_witness :
    SuperblockRef.magic ⟨0⟩ fixtureMem = EXT2_MAGIC ∧
    (Superblock.from_bytes true ⟨0, 1024⟩ fixtureMem = Abortable.ok (⟨0⟩, fixtureMem) ∧
      SuperblockRef.magic ⟨0⟩ fixtureMem = EXT2_MAGIC) :=
  ⟨by decide, superblock_from_bytes_works true ⟨0, 1024⟩ fixtureMem (by decide)⟩

/-- C2: the slice-based constructors equal the address-based constructors
applied to the slice's start address, and views constructed over the same
underlying bytes via either entry point are the same reference with
identical field values. -/
theorem from_bytes_refines_from_addr (debug : Bool) (b : Slice) (mem : Mem) :
    Superblock.from_bytes debug b mem = Superblock.from_addr debug b.as_ptr mem ∧
    Superblock.from_bytes_mut debug b mem = Superblock.from_addr_mut debug b.as_mut_ptr mem ∧
    (∀ v w mem1 mem2,
      Superblock.from_addr debug b.base mem = Abortable.ok (v, mem1) →
      Superblock.from_bytes debug b mem = Abortable.ok (w, mem2) →
      v = w ∧ v.magic mem1 = w.magic mem2 ∧ v.blocks_count mem1 = w.blocks_count mem2) := by
  refine ⟨rfl, rfl, ?_⟩
  intro v w mem1 mem2 h1 h2
  have h2' : Superblock.from_addr debug b.base mem = Abortable.ok (w, mem2) := h2
  rw [h1] at h2'
  obtain ⟨hv, hm⟩ : v = w ∧ mem1 = mem2 := by
    injection h2' with h
    exact ⟨congrArg Prod.fst h, congrArg Prod.snd h⟩
  subst hv; subst hm
  exact ⟨rfl, rfl, rfl⟩

/-- Witness for C2: at the concrete fixture, both entry points yield the
same view with the same magic value. -/
theorem from_bytes_refines_from_addr_witness :
    Superblock.from_bytes true ⟨0, 1024⟩ fixtureMem =
      Superblock.from_addr true (Slice.as_ptr ⟨0, 1024⟩) fixtureMem ∧
    (⟨0⟩ : SuperblockRef) = ⟨0⟩ ∧
    SuperblockRef.magic ⟨0⟩ fixtureMem = SuperblockRef.magic ⟨0⟩ fixtureMem ∧
    SuperblockRef.blocks_count ⟨0⟩ fixtureMem = SuperblockRef.blocks_count ⟨0⟩ fixtureMem :=
  ⟨(from_bytes_refines_from_addr true ⟨0, 1024⟩ fixtureMem).1,
    (from_bytes_refines_from_addr true ⟨0, 1024⟩ fixtureMem).2.2 ⟨0⟩ ⟨0⟩
      fixtureMem fixtureMem rfl rfl⟩

/-- C3: for every region whose magic field differs from EXT2_MAGIC, all four
constructors abort in a debug build (no recoverable error value is
produced); with the check disabled (release build) construction succeeds,
the memory is unchanged, and the magic field read through the returned view
is exactly the corrupted stored bytes. -/
theorem corrupted_magic_aborts (addr len : Nat) (mem : Mem)
    (h : SuperblockRef.magic ⟨addr⟩ mem ≠ EXT2_MAGIC) :
    Superblock.from_addr true addr mem = Abortable.abort ∧
    Superblock.from_addr_mut true addr mem = Abortable.abort ∧
    Superblock.from_bytes true ⟨addr, len⟩ mem = Abortable.abort ∧
    Superblock.from_bytes_mut true ⟨addr, len⟩ mem = Abortable.abort ∧
    Superblock.from_addr false addr mem = Abortable.ok (⟨addr⟩, mem) ∧
    Superblock.from_addr_mut false addr mem = Abortable.ok (⟨addr⟩, mem) ∧
    Superblock.from_bytes false ⟨addr, len⟩ mem = Abortable.ok (⟨addr⟩, mem) ∧
    Superblock.from_bytes_mut false ⟨addr, len⟩ mem = Abortable.ok (⟨addr⟩, mem) ∧
    SuperblockRef.magic ⟨addr⟩ mem = readLE16 mem (addr + magicOffset) := by
  have hb : (SuperblockRef.magic ⟨addr⟩ mem == EXT2_MAGIC) = false := by
    simpa using h
  refine ⟨?_, ?_, ?_, ?_, ?_, ?_, ?_, ?_, rfl⟩ <;>
    simp [Superblock.from_bytes, Superblock.from_bytes_mut, Superblock.from_addr,
      Superblock.from_addr_mut, Slice.as_ptr, Slice.as_mut_ptr, debug_assert_eq, hb]

/-- Witness for C3: the all-zero corrupted buffer aborts in a debug build
and passes through unchanged with the check disabled. -/
theorem corrupted_magic_aborts_witness :
    SuperblockRef.magic ⟨0⟩ corruptMem ≠ EXT2_MAGIC ∧
    (Superblock.from_addr true 0 corruptMem = Abortable.abort ∧
      Superblock.from_addr false 0 corruptMem = Abortable.ok (⟨0⟩, corruptMem)) :=
  ⟨by decide,
    (corrupted_magic_aborts 0 0 corruptMem (by decide)).1,
    (corrupted_magic_aborts 0 0 corruptMem (by decide)).2.2.2.2.1⟩

/-- The two address-based constructors are the same computation. -/
lemma from_addr_mut_eq_from_addr :
    Superblock.from_addr_mut = Superblock.from_addr := rfl

/-- Characterization of the abort outcome of `from_addr`: it occurs exactly
in a debug build with a magic mismatch read through the reinterpreted
reference. -/
lemma from_addr_abort_iff (debug : Bool) (addr : Nat) (mem : Mem) :
    Superblock.from_addr debug addr mem = Abortable.abort ↔
      debug = true ∧ SuperblockRef.magic ⟨addr⟩ mem ≠ EXT2_MAGIC := by
  cases debug with
  | false => simp [Superblock.from_addr, debug_assert_eq]
  | true =>
    by_cases hmag : SuperblockRef.magic ⟨addr⟩ mem = EXT2_MAGIC
    · simp [Superblock.from_addr, debug_assert_eq, hmag]
    · have hb : (SuperblockRef.magic ⟨addr⟩ mem == EXT2_MAGIC) = false := by
        simpa using hmag
      simp [Superblock.from_addr, debug_assert_eq, hb, hmag]

/-- Every run of `from_addr` either returns the reference at the given
address with the memory unchanged, or (in a debug build only) aborts. -/
lemma from_addr_cases (debug : Bool) (addr : Nat) (mem : Mem) :
    Superblock.from_addr debug addr mem = Abortable.ok (⟨addr⟩, mem) ∨
      (debug = true ∧ Superblock.from_addr debug addr mem = Abortable.abort) := by
  cases debug with
  | false => left; simp [Superblock.from_addr, debug_assert_eq]
  | true =>
    by_cases hmag : SuperblockRef.magic ⟨addr⟩ mem = EXT2_MAGIC
    · left; simp [Superblock.from_addr, debug_assert_eq, hmag]
    · right
      exact ⟨rfl, (from_addr_abort_iff true addr mem).mpr ⟨rfl, hmag⟩⟩

/-- A successful run of `from_addr` returns exactly the reference at the
given address and leaves the memory unchanged. -/
lemma from_addr_ok_elim (debug : Bool) (addr : Nat) (mem : Mem)
    (v : SuperblockRef) (mem2 : Mem)
    (hok : Superblock.from_addr debug addr mem = Abortable.ok (v, mem2)) :
    v = ⟨addr⟩ ∧ mem2 = mem := by
  rcases from_addr_cases debug addr mem with h | ⟨_, h⟩
  · rw [h] at hok
    injection hok with h2
    exact ⟨(congrArg Prod.fst h2).symm, (congrArg Prod.snd h2).symm⟩
  · rw [h] at hok
    cases hok

/-- Reading back the 32-bit field just written yields the value reduced
modulo 2^32. -/
lemma readLE32_writeLE32_same (mem : Mem) (a v : Nat) :
    readLE32 (writeLE32 mem a v) a = v % 4294967296 := by
  simp only [readLE32, writeLE32]
  split_ifs <;> omega

/-- A 32-bit write does not disturb a 16-bit read from a disjoint range. -/
lemma readLE16_writeLE32_disjoint (mem : Mem) (a b v : Nat)
    (h : a + 4 ≤ b ∨ b + 2 ≤ a) :
    readLE16 (writeLE32 mem a v) b = readLE16 mem b := by
  simp only [readLE16, writeLE32]
  split_ifs <;> omega

/-- C4: no constructor has a recoverable error path: for every input, each
of the four constructors either returns the reference to the record (with
the memory unchanged) or — only in a debug build — aborts; no failure value
is ever produced. -/
theorem no_recoverable_error_path (debug : Bool) (addr : Nat) (b : Slice) (mem : Mem) :
    (Superblock.from_addr debug addr mem = Abortable.ok (⟨addr⟩, mem) ∨
      (debug = true ∧ Superblock.from_addr debug addr mem = Abortable.abort)) ∧
    (Superblock.from_addr_mut debug addr mem = Abortable.ok (⟨addr⟩, mem) ∨
      (debug = true ∧ Superblock.from_addr_mut debug addr mem = Abortable.abort)) ∧
    (Superblock.from_bytes debug b mem = Abortable.ok (⟨b.base⟩, mem) ∨
      (debug = true ∧ Superblock.from_bytes debug b mem = Abortable.abort)) ∧
    (Superblock.from_bytes_mut debug b mem = Abortable.ok (⟨b.base⟩, mem) ∨
      (debug = true ∧ Superblock.from_bytes_mut debug b mem = Abortable.abort)) := by
  exact ⟨from_addr_cases debug addr mem, from_addr_cases debug addr mem,
    from_addr_cases debug b.base mem, from_addr_cases debug b.base mem⟩

/-- C5: the slice-based constructors never consult the slice's length: the
outcome is identical for any two lengths over the same start address, and a
slice of length 0 (shorter than any record) is accepted — in a release
build unconditionally, in a debug build whenever the magic matches. -/
theorem from_bytes_ignores_length (debug : Bool) (base len len2 : Nat) (mem : Mem) :
    Superblock.from_bytes debug ⟨base, len⟩ mem = Superblock.from_bytes debug ⟨base, len2⟩ mem ∧
    Superblock.from_bytes_mut debug ⟨base, len⟩ mem =
      Superblock.from_bytes_mut debug ⟨base, len2⟩ mem ∧
    Superblock.from_bytes false ⟨base, 0⟩ mem = Abortable.ok (⟨base⟩, mem) ∧
    Superblock.from_bytes_mut false ⟨base, 0⟩ mem = Abortable.ok (⟨base⟩, mem) ∧
    (SuperblockRef.magic ⟨base⟩ mem = EXT2_MAGIC →
      Superblock.from_bytes true ⟨base, 0⟩ mem = Abortable.ok (⟨base⟩, mem)) := by
  refine ⟨rfl, rfl, ?_, ?_, ?_⟩
  · simp [Superblock.from_bytes, Superblock.from_addr, Slice.as_ptr, debug_assert_eq]
  · simp [Superblock.from_bytes_mut, Superblock.from_addr_mut, Slice.as_mut_ptr,
      debug_assert_eq]
  · intro h
    simp [Superblock.from_bytes, Superblock.from_addr, Slice.as_ptr, debug_assert_eq, h]

/-- Witness for C5: the empty slice over the fixture buffer is accepted in
a debug build. -/
theorem from_bytes_ignores_length_witness :
    SuperblockRef.magic ⟨0⟩ fixtureMem = EXT2_MAGIC ∧
    Superblock.from_bytes true ⟨0, 0⟩ fixtureMem = Abortable.ok (⟨0⟩, fixtureMem) :=
  ⟨by decide,
    (from_bytes_ignores_length true 0 0 7 fixtureMem).2.2.2.2 (by decide)⟩

/-- C6: writing a non-identity field (the block count) through a mutable
view is visible through a subsequently constructed immutable view over the
same bytes: the re-constructed view reads back the new value (reduced to
the field's 32-bit width) while the identity field is untouched by the
round-trip. -/
theorem mut_write_roundtrip (debug : Bool) (addr len v : Nat) (mem : Mem)
    (h : SuperblockRef.magic ⟨addr⟩ mem = EXT2_MAGIC) :
    Superblock.from_bytes_mut debug ⟨addr, len⟩ mem = Abortable.ok (⟨addr⟩, mem) ∧
    SuperblockRef.magic ⟨addr⟩ (SuperblockRef.set_blocks_count ⟨addr⟩ v mem) =
      SuperblockRef.magic ⟨addr⟩ mem ∧
    SuperblockRef.blocks_count ⟨addr⟩ (SuperblockRef.set_blocks_count ⟨addr⟩ v mem) =
      v % 4294967296 ∧
    Superblock.from_bytes debug ⟨addr, len⟩ (SuperblockRef.set_blocks_count ⟨addr⟩ v mem) =
      Abortable.ok (⟨addr⟩, SuperblockRef.set_blocks_count ⟨addr⟩ v mem) := by
  have hmagic : SuperblockRef.magic ⟨addr⟩ (SuperblockRef.set_blocks_count ⟨addr⟩ v mem) =
      SuperblockRef.magic ⟨addr⟩ mem := by
    simp only [SuperblockRef.magic, SuperblockRef.set_blocks_count, magicOffset,
      blocksCountOffset]
    exact readLE16_writeLE32_disjoint mem (addr + 4) (addr + 56) v (Or.inl (by omega))
  refine ⟨?_, hmagic, ?_, ?_⟩
  · simp [Superblock.from_bytes_mut, Superblock.from_addr_mut, Slice.as_mut_ptr,
      debug_assert_eq, h]
  · simp only [SuperblockRef.blocks_count, SuperblockRef.set_blocks_count, blocksCountOffset]
    exact readLE32_writeLE32_same mem (addr + 4) v
  · simp [Superblock.from_bytes, Superblock.from_addr, Slice.as_ptr, debug_assert_eq,
      hmagic, h]

/-- Witness for C6: mutate the block count of the fixture buffer to 12345
through the mutable view, then re-view: the block count reads back 12345
and the magic field is unchanged. -/
theorem mut_write_roundtrip_witness :
    SuperblockRef.magic ⟨0⟩ fixtureMem = EXT2_MAGIC ∧
    (Superblock.from_bytes_mut true ⟨0, 1024⟩ fixtureMem = Abortable.ok (⟨0⟩, fixtureMem) ∧
      SuperblockRef.magic ⟨0⟩ (SuperblockRef.set_blocks_count ⟨0⟩ 12345 fixtureMem) =
        SuperblockRef.magic ⟨0⟩ fixtureMem ∧
      SuperblockRef.blocks_count ⟨0⟩ (SuperblockRef.set_blocks_count ⟨0⟩ 12345 fixtureMem) =
        12345 % 4294967296 ∧
      Superblock.from_bytes true ⟨0, 1024⟩
          (SuperblockRef.set_blocks_count ⟨0⟩ 12345 fixtureMem) =
        Abortable.ok (⟨0⟩, SuperblockRef.set_blocks_count ⟨0⟩ 12345 fixtureMem)) :=
  ⟨by decide, mut_write_roundtrip true 0 1024 12345 fixtureMem (by decide)⟩

/-- C7: each address-based constructor first forms the reference by
reinterpreting the given address, then runs the debug-only check by reading
the magic field through that very reference: the abort condition is exactly
a debug build whose magic read at the formed reference mismatches, every
successful run returns exactly that reference, and construction never
modifies the underlying bytes. -/
theorem reinterpret_then_check (debug : Bool) (addr : Nat) (mem : Mem) :
    (Superblock.from_addr debug addr mem = Abortable.abort ↔
      debug = true ∧ SuperblockRef.magic ⟨addr⟩ mem ≠ EXT2_MAGIC) ∧
    (Superblock.from_addr_mut debug addr mem = Abortable.abort ↔
      debug = true ∧ SuperblockRef.magic ⟨addr⟩ mem ≠ EXT2_MAGIC) ∧
    (∀ v mem2, Superblock.from_addr debug addr mem = Abortable.ok (v, mem2) →
      v = ⟨addr⟩ ∧ mem2 = mem) ∧
    (∀ v mem2, Superblock.from_addr_mut debug addr mem = Abortable.ok (v, mem2) →
      v = ⟨addr⟩ ∧ mem2 = mem) :=
  ⟨from_addr_abort_iff debug addr mem, from_addr_abort_iff debug addr mem,
    fun v mem2 hok => from_addr_ok_elim debug addr mem v mem2 hok,
    fun v mem2 hok => from_addr_ok_elim debug addr mem v mem2 hok⟩

/-- Witness for C7: on the corrupted buffer, the debug-build abort
condition holds concretely and the constructor aborts. -/
theorem reinterpret_then_check_witness :
    Superblock.from_addr true 0 corruptMem = Abortable.abort :=
  (reinterpret_then_check true 0 corruptMem).1.mpr ⟨rfl, by decide⟩

/-- C9: every successfully returned view sits exactly at the given address
(address-based constructors) or at the slice's first byte (slice-based
constructors); in particular no 1024-byte superblock offset is applied. -/
theorem no_offset_applied (debug : Bool) (addr : Nat) (b : Slice) (mem : Mem) :
    (∀ v mem2, Superblock.from_addr debug addr mem = Abortable.ok (v, mem2) →
      v.base = addr ∧ v.base ≠ addr + 1024) ∧
    (∀ v mem2, Superblock.from_addr_mut debug addr mem = Abortable.ok (v, mem2) →
      v.base = addr ∧ v.base ≠ addr + 1024) ∧
    (∀ v mem2, Superblock.from_bytes debug b mem = Abortable.ok (v, mem2) →
      v.base = b.base ∧ v.base ≠ b.base + 1024) ∧
    (∀ v mem2, Superblock.from_bytes_mut debug b mem = Abortable.ok (v, mem2) →
      v.base = b.base ∧ v.base ≠ b.base + 1024) := by
  refine ⟨?_, ?_, ?_, ?_⟩ <;> intro v mem2 hok
  · obtain ⟨hv, -⟩ := from_addr_ok_elim debug addr mem v mem2 hok
    subst hv; exact ⟨rfl, by show addr ≠ addr + 1024; omega⟩
  · obtain ⟨hv, -⟩ := from_addr_ok_elim debug addr mem v mem2 hok
    subst hv; exact ⟨rfl, by show addr ≠ addr + 1024; omega⟩
  · obtain ⟨hv, -⟩ := from_addr_ok_elim debug b.base mem v mem2 hok
    subst hv; exact ⟨rfl, by show b.base ≠ b.base + 1024; omega⟩
  · obtain ⟨hv, -⟩ := from_addr_ok_elim debug b.base mem v mem2 hok
    subst hv; exact ⟨rfl, by show b.base ≠ b.base + 1024; omega⟩

/-- Witness for C9: the view returned over the corrupted buffer at address
0 (release build) sits exactly at address 0, not at 1024. -/
theorem no_offset_applied_witness :
    (⟨0⟩ : SuperblockRef).base = 0 ∧ (⟨0⟩ : SuperblockRef).base ≠ 0 + 1024 :=
  (no_offset_applied false 0 ⟨0, 0⟩ corruptMem).1 ⟨0⟩ corruptMem rfl

/-- A second concrete buffer that agrees with the fixture on the two magic
bytes but differs from it everywhere else. -/
def fixtureMemOtherBytes : Mem := fun a =>
  if a = 56 then 0x53 else if a = 57 then 0xEF else 7

/-- C10: the magic equality is the only runtime check, and only in a debug
build: with the check disabled every constructor succeeds on every input
(address 0, empty slices, any alignment, any contents), and in any build
the outcome depends only on the two magic-field bytes — two memories that
agree on the magic field produce the same abort behavior. -/
theorem only_magic_checked (debug : Bool) (addr : Nat) (b : Slice) (mem mem2 : Mem) :
    Superblock.from_addr false addr mem = Abortable.ok (⟨addr⟩, mem) ∧
    Superblock.from_addr_mut false addr mem = Abortable.ok (⟨addr⟩, mem) ∧
    Superblock.from_bytes false b mem = Abortable.ok (⟨b.base⟩, mem) ∧
    Superblock.from_bytes_mut false b mem = Abortable.ok (⟨b.base⟩, mem) ∧
    (SuperblockRef.magic ⟨addr⟩ mem = SuperblockRef.magic ⟨addr⟩ mem2 →
      ((Superblock.from_addr debug addr mem = Abortable.abort) ↔
        (Superblock.from_addr debug addr mem2 = Abortable.abort))) ∧
    ((Superblock.from_addr debug addr mem = Abortable.abort) ↔
      debug = true ∧ SuperblockRef.magic ⟨addr⟩ mem ≠ EXT2_MAGIC) := by
  refine ⟨?_, ?_, ?_, ?_, ?_, from_addr_abort_iff debug addr mem⟩
  · simp [Superblock.from_addr, debug_assert_eq]
  · simp [Superblock.from_addr_mut, debug_assert_eq]
  · simp [Superblock.from_bytes, Superblock.from_addr, Slice.as_ptr, debug_assert_eq]
  · simp [Superblock.from_bytes_mut, Superblock.from_addr_mut, Slice.as_mut_ptr,
      debug_assert_eq]
  · intro hag
    rw [from_addr_abort_iff debug addr mem, from_addr_abort_iff debug addr mem2, hag]

/-- Witness for C10: the fixture buffer and a buffer differing from it on
every non-magic byte produce the same (non-)abort behavior in a debug
build. -/
theorem only_magic_checked_witness :
    SuperblockRef.magic ⟨0⟩ fixtureMem = SuperblockRef.magic ⟨0⟩ fixtureMemOtherBytes ∧
    ((Superblock.from_addr true 0 fixtureMem = Abortable.abort) ↔
      (Superblock.from_addr true 0 fixtureMemOtherBytes = Abortable.abort)) :=
  ⟨by decide,
    (only_magic_checked true 0 ⟨0, 0⟩ fixtureMem fixtureMemOtherBytes).2.2.2.2.1 (by decide)⟩

/-- Witness for C4: at a concrete input (release build, address 0, empty
slice, all-zero memory) each constructor's outcome is a returned reference
or a debug-only abort. -/
theorem no_recoverable_error_path_witness :
    (Superblock.from_addr false 0 corruptMem = Abortable.ok (⟨0⟩, corruptMem) ∨
      (false = true ∧ Superblock.from_addr false 0 corruptMem = Abortable.abort)) ∧
    (Superblock.from_addr_mut false 0 corruptMem = Abortable.ok (⟨0⟩, corruptMem) ∨
      (false = true ∧ Superblock.from_addr_mut false 0 corruptMem = Abortable.abort)) ∧
    (Superblock.from_bytes false ⟨0, 0⟩ corruptMem = Abortable.ok (⟨0⟩, corruptMem) ∨
      (false = true ∧ Superblock.from_bytes false ⟨0, 0⟩ corruptMem = Abortable.abort)) ∧
    (Superblock.from_bytes_mut false ⟨0, 0⟩ corruptMem = Abortable.ok (⟨0⟩, corruptMem) ∨
      (false = true ∧ Superblock.from_bytes_mut false ⟨0, 0⟩ corruptMem = Abortable.abort)) :=
  no_recoverable_error_path false 0 ⟨0, 0⟩ corruptMem
